import Mathlib

/-!
Shallow embedding of `src/backend/app.py` (minimart backend).

Modelling conventions:

* Money.  Every stored money value in the program is a Python `Decimal`
  with exactly 2 fraction digits (`Numeric(10, 2)` columns; `create_product`
  quantizes the raw price to `Decimal("0.01")` before storing).  Line totals
  (`price * quantity`) and sums of such values are again exact decimals with
  2 fraction digits, so all stored and accumulated money values are embedded
  as an exact integer number of cents (`Cents := Int`).  The `_money` helper
  only converts a final value to a JSON wire float; JSON transport encoding
  is an external collaborator, so it is not embedded.

* Database.  Tables are embedded as Lean lists kept in primary-key order
  (ids are assigned monotonically, so insertion order is id order, which is
  what unordered SQLAlchemy `.all()` queries return on these tables);
  `order_by(id.asc())` is embedded as an explicit sort.  Numeric columns are
  modelled as unbounded exact values.

* Requests.  Each Flask handler becomes a function from the store and the
  request payload to the new store plus an `Except` result; an error result
  is returned exactly on the paths where the handler returns an error
  response before committing (the session is never committed on those paths,
  so the store is unchanged).
-/

namespace Minimart

/-- Money as an exact count of cents (2-fraction-digit decimal). -/
abbrev Cents := Int

/-- Row of `catalog_products`. -/
structure Product where
  id : Int
  name : String
  description : String
  price : Cents
deriving Repr, DecidableEq

/-- Row of `cart_items`. -/
structure CartItem where
  id : Int
  cart_id : String
  product_id : Int
  quantity : Int
deriving Repr, DecidableEq

/-- Row of `orders` (`created_at` is not modelled; no logic reads it). -/
structure Order where
  id : Int
  total : Cents
deriving Repr, DecidableEq

/-- Row of `order_items`. -/
structure OrderItem where
  id : Int
  order_id : Int
  product_id : Int
  quantity : Int
  unit_price : Cents
deriving Repr, DecidableEq

/-- The whole database, with the autoincrement counters of each table. -/
structure Store where
  products : List Product
  cartItems : List CartItem
  orders : List Order
  orderItems : List OrderItem
  nextProductId : Int
  nextCartItemId : Int
  nextOrderId : Int
  nextOrderItemId : Int
deriving Repr, DecidableEq

/-- Error taxonomy of the handlers: `validation` is a 400 with an
`error` message, `notFound` a 404, `emptyCart` the 400 "Cart is empty"
response of `checkout`, and `internal` an uncaught exception (request
aborts before `commit`, nothing is persisted). -/
inductive ApiError where
  | validation (msg : String)
  | notFound (msg : String)
  | emptyCart
  | internal
deriving Repr, DecidableEq

/-- Python `str.strip()` (leading and trailing whitespace removed),
defined over the character list so that it evaluates by kernel reduction.
Whitespace is modelled by `Char.isWhitespace`. -/
def pyStrip (s : String) : String :=
  ⟨((s.data.dropWhile Char.isWhitespace).reverse.dropWhile Char.isWhitespace).reverse⟩

/-- `_cart_id_from_request`: the single shared cart id. -/
def cart_id_from_request : String := "default"

/-- `Product.query.get(pid)`: look a product up by primary key. -/
def findProduct (s : Store) (pid : Int) : Option Product :=
  s.products.find? (fun p => p.id == pid)

/-- Integer division truncated toward zero (`d > 0` intended). -/
def truncDiv (n : Int) (d : Nat) : Int :=
  if 0 ≤ n then ((n.natAbs / d : Nat) : Int) else -((n.natAbs / d : Nat) : Int)

/-- Round-half-even division `n / d` (`d > 0` intended): the rounding used
by Python `Decimal.quantize` in its default context. -/
def roundHalfEvenDiv (n : Int) (d : Nat) : Int :=
  let q := n / (d : Int)
  let r := n % (d : Int)
  if 2 * r < (d : Int) then q
  else if (d : Int) < 2 * r then q + 1
  else if q % 2 = 0 then q else q + 1

/-- `Decimal(str(v)).quantize(Decimal("0.01"))` for an input whose decimal
value is `m * 10 ^ e`, as a number of cents: multiply out (exact) when
`e + 2 ≥ 0`, otherwise divide rounding half-even.  Context-precision limits
of `Decimal` (relevant only beyond 28 significant digits) are outside the
modelled range. -/
def quantizeCents (m e : Int) : Cents :=
  match e + 2 with
  | Int.ofNat k => m * (10 : Int) ^ k
  | Int.negSucc k => roundHalfEvenDiv m (10 ^ (k + 1))

/-- The `price` field of a `create_product` request body:
`absent` = key missing or JSON null (`data.get("price", None)` is `None`);
`num m e` = a value `v` such that `Decimal(str(v))` is the exact decimal
`m * 10 ^ e` (every JSON number and numeric string);
`nan` = a value on which `Decimal(str(v))` or the subsequent `quantize`
raises (non-numeric strings, `NaN`/`Infinity`, lists, ...). -/
inductive PriceIn where
  | absent
  | num (m e : Int)
  | nan
deriving Repr, DecidableEq

/-- `POST /api/products` (`create_product`).  `name`/`description` model
`data.get(...)`: `Option.none` is a missing key or JSON null (the code
replaces falsy values by `""` via `or ""` before `.strip()`). -/
def create_product (s : Store) (name description : Option String) (price : PriceIn) :
    Store × Except ApiError Product :=
  let name := pyStrip (name.getD "")
  let description := pyStrip (description.getD "")
  if name = "" then (s, .error (.validation "name is required"))
  else
    match price with
    | .absent => (s, .error (.validation "price is required"))
    | .nan => (s, .error (.validation "price must be a number"))
    | .num m e =>
      let price_dec := quantizeCents m e
      if price_dec < 0 then (s, .error (.validation "price must be >= 0"))
      else
        let p : Product := ⟨s.nextProductId, name, description, price_dec⟩
        ({ s with products := s.products ++ [p], nextProductId := s.nextProductId + 1 },
         .ok p)

/-- A JSON value as Python receives it, at the granularity `add_to_cart`
distinguishes: `pynone` = missing key or JSON null; `pyint` an integer;
`pyfloat m e` a binary float with exact (dyadic) value `m / 2 ^ e`;
`nonNumeric` a value on which `int(...)` raises (non-numeric string, list,
object, ...). -/
inductive PyVal where
  | pynone
  | pyint (n : Int)
  | pyfloat (m : Int) (e : Nat)
  | nonNumeric
deriving Repr, DecidableEq

/-- Python `int(v)`: identity on integers, truncation toward zero on
floats, `TypeError`/`ValueError` (modelled as `none`) on `None` and
non-numeric values. -/
def pyToInt : PyVal → Option Int
  | .pynone => none
  | .pyint n => some n
  | .pyfloat m e => some (truncDiv m (2 ^ e))
  | .nonNumeric => none

/-- `CartItem.query.filter_by(cart_id=..., product_id=...).first()`. -/
def findCartItem (s : Store) (cid : String) (pid : Int) : Option CartItem :=
  s.cartItems.find? (fun ci => ci.cart_id == cid && ci.product_id == pid)

/-- `existing.quantity += quantity` on the row with primary key `target`. -/
def bumpQuantity (l : List CartItem) (target : Int) (q : Int) : List CartItem :=
  l.map (fun ci => if ci.id == target then { ci with quantity := ci.quantity + q } else ci)

/-- `POST /api/cart` (`add_to_cart`).  `quantity = Option.none` models a
missing `"quantity"` key (`data.get("quantity", 1)` defaults to `1`); a JSON
null is `some .pynone`.  The handler responds with `_cart_summary` of the
updated store; that read-only response body is modelled separately by
`cart_summary`. -/
def add_to_cart (s : Store) (product_id : PyVal) (quantity : Option PyVal) :
    Store × Except ApiError Unit :=
  let cart_id := cart_id_from_request
  match product_id with
  | .pynone => (s, .error (.validation "product_id is required"))
  | pidv =>
    let qv := quantity.getD (.pyint 1)
    match pyToInt pidv, pyToInt qv with
    | some pid, some q =>
      if q ≤ 0 then (s, .error (.validation "quantity must be >= 1"))
      else
        match findProduct s pid with
        | none => (s, .error (.notFound "product not found"))
        | some _ =>
          match findCartItem s cart_id pid with
          | some existing =>
            ({ s with cartItems := bumpQuantity s.cartItems existing.id q }, .ok ())
          | none =>
            ({ s with
                cartItems := s.cartItems ++ [⟨s.nextCartItemId, cart_id, pid, q⟩],
                nextCartItemId := s.nextCartItemId + 1 }, .ok ())
    | _, _ => (s, .error (.validation "product_id and quantity must be integers"))

/-- One entry of the `_cart_summary` response. -/
structure SummaryLine where
  cart_item_id : Int
  product_id : Int
  name : String
  price : Cents
  quantity : Int
  line_total : Cents
deriving Repr, DecidableEq

/-- The `_cart_summary` response: the line entries and the grand total. -/
structure CartSummary where
  items : List SummaryLine
  total : Cents
deriving Repr, DecidableEq

/-- The loop body of `_cart_summary`: build the lines and accumulate the
total over the given cart rows.  `ci.product` (relationship traversal) is
`findProduct`; `none` models the crash on a dangling `product_id` (cannot
occur through the API: the foreign key is checked at insert). -/
def summaryLines (s : Store) : List CartItem → Option (List SummaryLine × Cents)
  | [] => some ([], 0)
  | ci :: rest => do
    let p ← findProduct s ci.product_id
    let (ls, t) ← summaryLines s rest
    let line_total := p.price * ci.quantity
    pure (⟨ci.id, p.id, p.name, p.price, ci.quantity, line_total⟩ :: ls, line_total + t)

/-- `_cart_summary(cart_id)` (also the body of `GET /api/cart`). -/
def cart_summary (s : Store) (cid : String) : Option CartSummary :=
  (summaryLines s (s.cartItems.filter (fun ci => ci.cart_id == cid))).map
    (fun lt => ⟨lt.1, lt.2⟩)

/-- Insert a product into a list sorted by ascending id. -/
def insertById (p : Product) : List Product → List Product
  | [] => [p]
  | q :: qs => if p.id ≤ q.id then p :: q :: qs else q :: insertById p qs

/-- Sort products by ascending id (`order_by(Product.id.asc())`). -/
def sortById : List Product → List Product
  | [] => []
  | p :: ps => insertById p (sortById ps)

/-- `GET /api/products` (`list_products`): all products, ascending by id.
The handler serializes each row to `{id, name, description, price}`; the
projection is the identity on the modelled fields. -/
def list_products (s : Store) : List Product :=
  sortById s.products

/-- The loop body of `checkout`: for each cart row snapshot the product's
current price into a fresh `OrderItem` and accumulate the line total.
`oid` is the flushed `order.id`, `nextOi` the next `order_items` key. -/
def checkoutItems (s : Store) (oid : Int) (nextOi : Int) :
    List CartItem → Option (List OrderItem × Cents)
  | [] => some ([], 0)
  | ci :: rest => do
    let p ← findProduct s ci.product_id
    let (ois, t) ← checkoutItems s oid (nextOi + 1) rest
    pure (⟨nextOi, oid, ci.product_id, ci.quantity, p.price⟩ :: ois, p.price * ci.quantity + t)

/-- `POST /api/checkout` (`checkout`): on a non-empty cart, insert one
`Order` with the accumulated total, one `OrderItem` per cart row with the
snapshotted `unit_price`, delete the cart's rows, and return
`(order.id, total)`; on an empty cart, fail with `emptyCart` and change
nothing.  The whole body is one transaction (single `commit` at the end),
so the error paths return the store unchanged. -/
def checkout (s : Store) : Store × Except ApiError (Int × Cents) :=
  let cart_id := cart_id_from_request
  let cart_items := s.cartItems.filter (fun ci => ci.cart_id == cart_id)
  if cart_items.isEmpty then (s, .error .emptyCart)
  else
    match checkoutItems s s.nextOrderId s.nextOrderItemId cart_items with
    | none => (s, .error .internal)
    | some (ois, total) =>
      ({ s with
          orders := s.orders ++ [⟨s.nextOrderId, total⟩],
          orderItems := s.orderItems ++ ois,
          cartItems := s.cartItems.filter (fun ci => !(ci.cart_id == cart_id)),
          nextOrderId := s.nextOrderId + 1,
          nextOrderItemId := s.nextOrderItemId + ois.length },
       .ok (s.nextOrderId, total))


/-- Price of the product with the given id (`0` is never read: it is
returned only for a dangling reference, excluded wherever this is used). -/
def priceOf (s : Store) (pid : Int) : Cents :=
  match findProduct s pid with
  | some p => p.price
  | none => 0

/-- The exact decimal total of a list of cart rows: sum of price × quantity. -/
def cartTotal (s : Store) (l : List CartItem) : Cents :=
  (l.map (fun ci => priceOf s ci.product_id * ci.quantity)).sum

/-- At most one cart row per (cart_id, product_id) pair. -/
def CartNoDup (s : Store) : Prop :=
  s.cartItems.Pairwise (fun a b => ¬(a.cart_id = b.cart_id ∧ a.product_id = b.product_id))

instance (s : Store) : Decidable (CartNoDup s) := by
  unfold CartNoDup; infer_instance

/-! ### Helper lemmas -/

theorem findProduct_id (s : Store) (pid : Int) (p : Product)
    (h : findProduct s pid = some p) : p.id = pid := by
  have := List.find?_some h
  simpa using this

theorem checkoutItems_isSome (s : Store) (oid : Int) :
    ∀ (l : List CartItem) (n : Int),
      (∀ ci ∈ l, (findProduct s ci.product_id).isSome) →
      (checkoutItems s oid n l).isSome := by
  intro l
  induction l with
  | nil => intro n _; simp [checkoutItems]
  | cons ci rest ih =>
    intro n h
    obtain ⟨p, hp⟩ := Option.isSome_iff_exists.mp (h ci (by simp))
    obtain ⟨⟨ois, t⟩, hrest⟩ :=
      Option.isSome_iff_exists.mp (ih (n + 1) (fun x hx => h x (by simp [hx])))
    simp [checkoutItems, hp, hrest]

theorem checkoutItems_spec (s : Store) (oid : Int) :
    ∀ (l : List CartItem) (n : Int) (ois : List OrderItem) (t : Cents),
      checkoutItems s oid n l = some (ois, t) →
      ois.map (fun oi => (oi.order_id, oi.product_id, oi.quantity, oi.unit_price))
          = l.map (fun ci => (oid, ci.product_id, ci.quantity, priceOf s ci.product_id)) ∧
        t = cartTotal s l := by
  intro l
  induction l with
  | nil =>
    intro n ois t h
    simp [checkoutItems] at h
    simp [h.1, h.2, cartTotal]
  | cons ci rest ih =>
    intro n ois t h
    cases hp : findProduct s ci.product_id with
    | none => simp [checkoutItems, hp] at h
    | some p =>
      cases hrest : checkoutItems s oid (n + 1) rest with
      | none => simp [checkoutItems, hp, hrest] at h
      | some pr =>
        obtain ⟨ois1, t1⟩ := pr
        simp [checkoutItems, hp, hrest] at h
        obtain ⟨h1, h2⟩ := ih (n + 1) ois1 t1 hrest
        obtain ⟨rfl, rfl⟩ := h
        constructor
        · simp [h1, priceOf, hp]
        · simp [h2, cartTotal, priceOf, hp]

theorem summaryLines_isSome (s : Store) :
    ∀ (l : List CartItem),
      (∀ ci ∈ l, (findProduct s ci.product_id).isSome) →
      (summaryLines s l).isSome := by
  intro l
  induction l with
  | nil => intro _; simp [summaryLines]
  | cons ci rest ih =>
    intro h
    obtain ⟨p, hp⟩ := Option.isSome_iff_exists.mp (h ci (by simp))
    obtain ⟨⟨ls, t⟩, hrest⟩ :=
      Option.isSome_iff_exists.mp (ih (fun x hx => h x (by simp [hx])))
    simp [summaryLines, hp, hrest]

theorem summaryLines_spec (s : Store) :
    ∀ (l : List CartItem) (ls : List SummaryLine) (t : Cents),
      summaryLines s l = some (ls, t) →
      ls.map (fun ln => (ln.cart_item_id, ln.product_id, ln.price, ln.quantity))
          = l.map (fun ci => (ci.id, ci.product_id, priceOf s ci.product_id, ci.quantity)) ∧
        (∀ ln ∈ ls, ln.line_total = ln.price * ln.quantity) ∧
        t = (ls.map SummaryLine.line_total).sum := by
  intro l
  induction l with
  | nil =>
    intro ls t h
    simp [summaryLines] at h
    simp [h.1, h.2]
  | cons ci rest ih =>
    intro ls t h
    cases hp : findProduct s ci.product_id with
    | none => simp [summaryLines, hp] at h
    | some p =>
      cases hrest : summaryLines s rest with
      | none => simp [summaryLines, hp, hrest] at h
      | some pr =>
        obtain ⟨ls1, t1⟩ := pr
        simp [summaryLines, hp, hrest] at h
        obtain ⟨h1, h2, h3⟩ := ih ls1 t1 hrest
        obtain ⟨rfl, rfl⟩ := h
        have hid := findProduct_id s ci.product_id p hp
        refine ⟨by simp [h1, priceOf, hp, hid], ?_, by simp [h3]⟩
        intro ln hln
        rcases List.mem_cons.mp hln with rfl | hmem
        · rfl
        · exact h2 ln hmem

/-! ### C2: checkout on an empty cart -/

def emptyStore : Store := ⟨[], [], [], [], 1, 1, 1, 1⟩

/-- C2: checkout on a cart with no rows fails with `emptyCart` and returns
the store unchanged (no Order, no OrderItems, nothing else touched). -/
theorem checkout_empty_cart (s : Store)
    (h : s.cartItems.filter (fun ci => ci.cart_id == cart_id_from_request) = []) :
    checkout s = (s, .error .emptyCart) := by
  unfold checkout
  simp [h]

/-- C2 witness: the empty store. -/
theorem checkout_empty_cart_witness :
    checkout emptyStore = (emptyStore, .error .emptyCart) :=
  checkout_empty_cart emptyStore (by decide)

/-! ### C9: the price is quantized before the non-negativity check -/

/-- C9: for any raw decimal price `m * 10 ^ e` whose half-even quantization
to 2 fraction digits is ≥ 0 — including strictly negative raw inputs —
`create_product` accepts and stores the quantized price. -/
theorem create_product_rounds_then_checks (s : Store) (n d : Option String) (m e : Int)
    (hn : pyStrip (n.getD "") ≠ "") (h : 0 ≤ quantizeCents m e) :
    create_product s n d (.num m e)
      = ({ s with
            products := s.products
              ++ [⟨s.nextProductId, pyStrip (n.getD ""), pyStrip (d.getD ""), quantizeCents m e⟩],
            nextProductId := s.nextProductId + 1 },
         .ok ⟨s.nextProductId, pyStrip (n.getD ""), pyStrip (d.getD ""), quantizeCents m e⟩) := by
  unfold create_product
  simp [hn, not_lt.mpr h]

/-- C9 witness: the raw price `-0.004` (strictly negative) quantizes to
`0.00` and is accepted, stored as `0.00`. -/
theorem create_product_rounds_then_checks_witness :
    ((-4 : Int) * 10 ^ 3 < 0 ∧ quantizeCents (-4) (-3) = 0) ∧
      create_product emptyStore (some "Widget") none (.num (-4) (-3))
        = ({ emptyStore with
              products := emptyStore.products
                ++ [⟨emptyStore.nextProductId, pyStrip ((some "Widget").getD ""),
                      pyStrip ((none : Option String).getD ""), quantizeCents (-4) (-3)⟩],
              nextProductId := emptyStore.nextProductId + 1 },
           .ok ⟨emptyStore.nextProductId, pyStrip ((some "Widget").getD ""),
                 pyStrip ((none : Option String).getD ""), quantizeCents (-4) (-3)⟩) :=
  ⟨by decide,
   create_product_rounds_then_checks emptyStore (some "Widget") none (-4) (-3)
     (by decide) (by decide)⟩


/-! ### C1: checkout converts the cart into an order -/

/-- C1: on a cart with rows (and intact product references), `checkout`
succeeds, appends exactly one `Order` whose total is the exact decimal sum
of price × quantity over the cart's rows, appends one `OrderItem` per cart
row carrying the snapshotted unit price and the row's quantity, and deletes
all of the cart's rows, so the subsequent summary is empty with total 0. -/
theorem checkout_creates_order (s : Store)
    (hne : s.cartItems.filter (fun ci => ci.cart_id == cart_id_from_request) ≠ [])
    (hwf : ∀ ci ∈ s.cartItems.filter (fun ci => ci.cart_id == cart_id_from_request),
      (findProduct s ci.product_id).isSome) :
    ∃ s' oid total, checkout s = (s', .ok (oid, total)) ∧
      s'.orders = s.orders ++ [⟨oid, total⟩] ∧
      total = cartTotal s (s.cartItems.filter (fun ci => ci.cart_id == cart_id_from_request)) ∧
      s'.orderItems.map (fun oi => (oi.order_id, oi.product_id, oi.quantity, oi.unit_price))
        = s.orderItems.map (fun oi => (oi.order_id, oi.product_id, oi.quantity, oi.unit_price))
          ++ (s.cartItems.filter (fun ci => ci.cart_id == cart_id_from_request)).map
              (fun ci => (oid, ci.product_id, ci.quantity, priceOf s ci.product_id)) ∧
      s'.cartItems.filter (fun ci => ci.cart_id == cart_id_from_request) = [] ∧
      cart_summary s' cart_id_from_request = some ⟨[], 0⟩ := by
  obtain ⟨⟨ois, total⟩, hco⟩ := Option.isSome_iff_exists.mp
    (checkoutItems_isSome s s.nextOrderId
      (s.cartItems.filter (fun ci => ci.cart_id == cart_id_from_request))
      s.nextOrderItemId hwf)
  have hie : (s.cartItems.filter (fun ci => ci.cart_id == cart_id_from_request)).isEmpty
      = false := by
    cases h : s.cartItems.filter (fun ci => ci.cart_id == cart_id_from_request) with
    | nil => exact absurd h hne
    | cons a as => rfl
  obtain ⟨hmap, htot⟩ := checkoutItems_spec s s.nextOrderId
    (s.cartItems.filter (fun ci => ci.cart_id == cart_id_from_request))
    s.nextOrderItemId ois total hco
  have hfe : (s.cartItems.filter (fun ci => !(ci.cart_id == cart_id_from_request))).filter
      (fun ci => ci.cart_id == cart_id_from_request) = [] := by
    induction s.cartItems with
    | nil => rfl
    | cons a as ih =>
      by_cases ha : a.cart_id == cart_id_from_request
      · simp [List.filter, ha, ih]
      · simp only [List.filter, ha, Bool.not_false]
        simp [List.filter, ha, ih]
  refine ⟨{ s with
      orders := s.orders ++ [⟨s.nextOrderId, total⟩],
      orderItems := s.orderItems ++ ois,
      cartItems := s.cartItems.filter (fun ci => !(ci.cart_id == cart_id_from_request)),
      nextOrderId := s.nextOrderId + 1,
      nextOrderItemId := s.nextOrderItemId + ois.length },
    s.nextOrderId, total, ?_, by simp, htot, by simp [hmap], hfe, ?_⟩
  · unfold checkout
    simp [hie, hco]
  · simp [cart_summary, hfe, summaryLines]

/-- C1 witness: cart [{price 9.99, qty 2}, {price 5.00, qty 1}]. -/
def storeC1 : Store :=
  ⟨[⟨1, "A", "", 999⟩, ⟨2, "B", "", 500⟩],
   [⟨1, "default", 1, 2⟩, ⟨2, "default", 2, 1⟩], [], [], 3, 3, 1, 1⟩

theorem checkout_creates_order_witness :
    cartTotal storeC1 (storeC1.cartItems.filter (fun ci => ci.cart_id == cart_id_from_request))
        = 2498 ∧
      (∃ s' oid total, checkout storeC1 = (s', .ok (oid, total)) ∧
        s'.orders = storeC1.orders ++ [⟨oid, total⟩] ∧
        total = cartTotal storeC1
          (storeC1.cartItems.filter (fun ci => ci.cart_id == cart_id_from_request)) ∧
        s'.orderItems.map (fun oi => (oi.order_id, oi.product_id, oi.quantity, oi.unit_price))
          = storeC1.orderItems.map (fun oi => (oi.order_id, oi.product_id, oi.quantity, oi.unit_price))
            ++ (storeC1.cartItems.filter (fun ci => ci.cart_id == cart_id_from_request)).map
                (fun ci => (oid, ci.product_id, ci.quantity, priceOf storeC1 ci.product_id)) ∧
        s'.cartItems.filter (fun ci => ci.cart_id == cart_id_from_request) = [] ∧
        cart_summary s' cart_id_from_request = some ⟨[], 0⟩) :=
  ⟨by decide, checkout_creates_order storeC1 (by decide) (by decide)⟩

/-! ### C6: cart summary is exact decimal arithmetic -/

/-- C6: for any cart state whose rows reference existing products,
`_cart_summary` returns one line per cart row with the product's price, the
row's quantity, `line_total = price × quantity` in exact decimal (cent)
arithmetic, and a grand total equal to the exact sum of the line totals;
a cart with no rows yields the empty summary with total 0. -/
theorem cart_summary_exact (s : Store) (cid : String)
    (hwf : ∀ ci ∈ s.cartItems.filter (fun ci => ci.cart_id == cid),
      (findProduct s ci.product_id).isSome) :
    ∃ out, cart_summary s cid = some out ∧
      out.items.map (fun ln => (ln.cart_item_id, ln.product_id, ln.price, ln.quantity))
        = (s.cartItems.filter (fun ci => ci.cart_id == cid)).map
            (fun ci => (ci.id, ci.product_id, priceOf s ci.product_id, ci.quantity)) ∧
      (∀ ln ∈ out.items, ln.line_total = ln.price * ln.quantity) ∧
      out.total = (out.items.map SummaryLine.line_total).sum ∧
      (s.cartItems.filter (fun ci => ci.cart_id == cid) = [] → out = ⟨[], 0⟩) := by
  obtain ⟨⟨ls, t⟩, hsl⟩ := Option.isSome_iff_exists.mp
    (summaryLines_isSome s (s.cartItems.filter (fun ci => ci.cart_id == cid)) hwf)
  obtain ⟨h1, h2, h3⟩ := summaryLines_spec s
    (s.cartItems.filter (fun ci => ci.cart_id == cid)) ls t hsl
  refine ⟨⟨ls, t⟩, by simp [cart_summary, hsl], h1, h2, h3, ?_⟩
  intro hnil
  rw [hnil] at hsl
  simp [summaryLines] at hsl
  simp [hsl.1, hsl.2]

/-- C6 witness: three rows priced 0.10 each sum to exactly 0.30. -/
def storeC6 : Store :=
  ⟨[⟨1, "T1", "", 10⟩, ⟨2, "T2", "", 10⟩, ⟨3, "T3", "", 10⟩],
   [⟨1, "default", 1, 1⟩, ⟨2, "default", 2, 1⟩, ⟨3, "default", 3, 1⟩], [], [], 4, 4, 1, 1⟩

theorem cart_summary_exact_witness :
    (cart_summary storeC6 "default").map CartSummary.total = some 30 ∧
      (∃ out, cart_summary storeC6 "default" = some out ∧
        out.items.map (fun ln => (ln.cart_item_id, ln.product_id, ln.price, ln.quantity))
          = (storeC6.cartItems.filter (fun ci => ci.cart_id == "default")).map
              (fun ci => (ci.id, ci.product_id, priceOf storeC6 ci.product_id, ci.quantity)) ∧
        (∀ ln ∈ out.items, ln.line_total = ln.price * ln.quantity) ∧
        out.total = (out.items.map SummaryLine.line_total).sum ∧
        (storeC6.cartItems.filter (fun ci => ci.cart_id == "default") = [] → out = ⟨[], 0⟩)) :=
  ⟨by decide, cart_summary_exact storeC6 "default" (by decide)⟩

/-! ### C10: checkout's frame -/

/-- C10: a successful checkout leaves every product row unchanged, deletes
exactly the cart rows of the checked-out cart id (rows of any other cart id
survive), and only appends to the orders and order-items tables. -/
theorem checkout_frame (s s' : Store) (oid : Int) (t : Cents)
    (h : checkout s = (s', .ok (oid, t))) :
    s'.products = s.products ∧
    s'.cartItems = s.cartItems.filter (fun ci => !(ci.cart_id == cart_id_from_request)) ∧
    (∀ ci ∈ s.cartItems, ci.cart_id ≠ cart_id_from_request → ci ∈ s'.cartItems) ∧
    (∃ no, s'.orders = s.orders ++ no) ∧
    (∃ ni, s'.orderItems = s.orderItems ++ ni) := by
  unfold checkout at h
  cases hie : (s.cartItems.filter (fun ci => ci.cart_id == cart_id_from_request)).isEmpty with
  | true => simp [hie] at h
  | false =>
    cases hco : checkoutItems s s.nextOrderId s.nextOrderItemId
        (s.cartItems.filter (fun ci => ci.cart_id == cart_id_from_request)) with
    | none => simp [hie, hco] at h
    | some pr =>
      obtain ⟨ois, total⟩ := pr
      simp only [hie, hco, Bool.false_eq_true, if_false] at h
      obtain ⟨rfl, -⟩ := Prod.mk.injEq .. ▸ And.intro (congrArg Prod.fst h) (congrArg Prod.snd h)
      refine ⟨rfl, rfl, ?_, ⟨_, rfl⟩, ⟨_, rfl⟩⟩
      intro ci hci hcid
      simp only [List.mem_filter]
      exact ⟨hci, by simp [hcid]⟩

/-- C10 witness: a cart row of a different cart id survives checkout. -/
def storeC10 : Store :=
  ⟨[⟨1, "A", "", 999⟩], [⟨1, "default", 1, 1⟩, ⟨2, "other", 1, 3⟩], [], [], 2, 3, 1, 1⟩

def storeC10After : Store :=
  ⟨[⟨1, "A", "", 999⟩], [⟨2, "other", 1, 3⟩], [⟨1, 999⟩], [⟨1, 1, 1, 1, 999⟩], 2, 3, 2, 2⟩

theorem checkout_frame_witness :
    storeC10After.products = storeC10.products ∧
    storeC10After.cartItems
      = storeC10.cartItems.filter (fun ci => !(ci.cart_id == cart_id_from_request)) ∧
    (∀ ci ∈ storeC10.cartItems, ci.cart_id ≠ cart_id_from_request →
      ci ∈ storeC10After.cartItems) ∧
    (∃ no, storeC10After.orders = storeC10.orders ++ no) ∧
    (∃ ni, storeC10After.orderItems = storeC10.orderItems ++ ni) :=
  checkout_frame storeC10 storeC10After 1 999 (by rfl)


/-! ### Branch evaluation lemmas for `add_to_cart` -/

theorem pyToInt_pynone : pyToInt .pynone = none := rfl

theorem pyToInt_pyint (n : Int) : pyToInt (.pyint n) = some n := rfl

theorem pyToInt_pyfloat (m : Int) (e : Nat) :
    pyToInt (.pyfloat m e) = some (truncDiv m (2 ^ e)) := rfl

theorem pyToInt_nonNumeric : pyToInt .nonNumeric = none := rfl

theorem add_to_cart_err_required (s : Store) (qv : Option PyVal) :
    add_to_cart s .pynone qv = (s, .error (.validation "product_id is required")) := rfl

theorem add_to_cart_err_notint (s : Store) (pidv : PyVal) (qv : Option PyVal)
    (hne : pidv ≠ .pynone)
    (h : pyToInt pidv = none ∨ pyToInt (qv.getD (.pyint 1)) = none) :
    add_to_cart s pidv qv
      = (s, .error (.validation "product_id and quantity must be integers")) := by
  cases pidv with
  | pynone => exact absurd rfl hne
  | pyint n =>
    rcases h with h | h
    · simp [pyToInt_pyint] at h
    · simp [add_to_cart, pyToInt_pyint, h]
  | pyfloat m e =>
    rcases h with h | h
    · simp [pyToInt_pyfloat] at h
    · simp [add_to_cart, pyToInt_pyfloat, h]
  | nonNumeric => simp [add_to_cart, pyToInt_nonNumeric]

theorem add_to_cart_err_qty (s : Store) (pidv : PyVal) (qv : Option PyVal) (pid q : Int)
    (hpid : pyToInt pidv = some pid) (hq : pyToInt (qv.getD (.pyint 1)) = some q)
    (hq0 : q ≤ 0) :
    add_to_cart s pidv qv = (s, .error (.validation "quantity must be >= 1")) := by
  cases pidv with
  | pynone => simp [pyToInt_pynone] at hpid
  | nonNumeric => simp [pyToInt_nonNumeric] at hpid
  | pyint n => simp [add_to_cart, pyToInt_pyint, hq, hq0]
  | pyfloat m e => simp [add_to_cart, pyToInt_pyfloat, hq, hq0]

theorem add_to_cart_err_notfound (s : Store) (pidv : PyVal) (qv : Option PyVal) (pid q : Int)
    (hpid : pyToInt pidv = some pid) (hq : pyToInt (qv.getD (.pyint 1)) = some q)
    (hq0 : 0 < q) (hfp : findProduct s pid = none) :
    add_to_cart s pidv qv = (s, .error (.notFound "product not found")) := by
  cases pidv with
  | pynone => simp [pyToInt_pynone] at hpid
  | nonNumeric => simp [pyToInt_nonNumeric] at hpid
  | pyint n =>
    simp only [pyToInt_pyint, Option.some.injEq] at hpid
    subst hpid
    simp [add_to_cart, pyToInt_pyint, hq, not_le.mpr hq0, hfp]
  | pyfloat m e =>
    simp only [pyToInt_pyfloat, Option.some.injEq] at hpid
    subst hpid
    simp [add_to_cart, pyToInt_pyfloat, hq, not_le.mpr hq0, hfp]

theorem add_to_cart_merge (s : Store) (pidv : PyVal) (qv : Option PyVal) (pid q : Int)
    (p : Product) (ci : CartItem)
    (hpid : pyToInt pidv = some pid) (hq : pyToInt (qv.getD (.pyint 1)) = some q)
    (hq0 : 0 < q) (hfp : findProduct s pid = some p)
    (hfc : findCartItem s cart_id_from_request pid = some ci) :
    add_to_cart s pidv qv
      = ({ s with cartItems := bumpQuantity s.cartItems ci.id q }, .ok ()) := by
  cases pidv with
  | pynone => simp [pyToInt_pynone] at hpid
  | nonNumeric => simp [pyToInt_nonNumeric] at hpid
  | pyint n =>
    simp only [pyToInt_pyint, Option.some.injEq] at hpid
    subst hpid
    simp [add_to_cart, pyToInt_pyint, hq, not_le.mpr hq0, hfp, hfc]
  | pyfloat m e =>
    simp only [pyToInt_pyfloat, Option.some.injEq] at hpid
    subst hpid
    simp [add_to_cart, pyToInt_pyfloat, hq, not_le.mpr hq0, hfp, hfc]

theorem add_to_cart_insert (s : Store) (pidv : PyVal) (qv : Option PyVal) (pid q : Int)
    (p : Product)
    (hpid : pyToInt pidv = some pid) (hq : pyToInt (qv.getD (.pyint 1)) = some q)
    (hq0 : 0 < q) (hfp : findProduct s pid = some p)
    (hfc : findCartItem s cart_id_from_request pid = none) :
    add_to_cart s pidv qv
      = ({ s with
            cartItems := s.cartItems ++ [⟨s.nextCartItemId, cart_id_from_request, pid, q⟩],
            nextCartItemId := s.nextCartItemId + 1 }, .ok ()) := by
  cases pidv with
  | pynone => simp [pyToInt_pynone] at hpid
  | nonNumeric => simp [pyToInt_nonNumeric] at hpid
  | pyint n =>
    simp only [pyToInt_pyint, Option.some.injEq] at hpid
    subst hpid
    simp [add_to_cart, pyToInt_pyint, hq, not_le.mpr hq0, hfp, hfc]
  | pyfloat m e =>
    simp only [pyToInt_pyfloat, Option.some.injEq] at hpid
    subst hpid
    simp [add_to_cart, pyToInt_pyfloat, hq, not_le.mpr hq0, hfp, hfc]

/-- Every possible effect of `add_to_cart` on the store: unchanged (an
error), one row's quantity bumped, or one fresh row appended for a pair
that had no row. -/
theorem add_to_cart_cartItems_shape (s : Store) (pidv : PyVal) (qv : Option PyVal) :
    (add_to_cart s pidv qv).1 = s ∨
    (∃ t q, (add_to_cart s pidv qv).1 = { s with cartItems := bumpQuantity s.cartItems t q }) ∨
    (∃ pid q, findCartItem s cart_id_from_request pid = none ∧
      (add_to_cart s pidv qv).1
        = { s with
             cartItems := s.cartItems ++ [⟨s.nextCartItemId, cart_id_from_request, pid, q⟩],
             nextCartItemId := s.nextCartItemId + 1 }) := by
  by_cases hne : pidv = .pynone
  · subst hne; left; rfl
  cases hpid : pyToInt pidv with
  | none => left; rw [add_to_cart_err_notint s pidv qv hne (Or.inl hpid)]
  | some pid =>
    cases hq : pyToInt (qv.getD (.pyint 1)) with
    | none => left; rw [add_to_cart_err_notint s pidv qv hne (Or.inr hq)]
    | some q =>
      by_cases hq0 : q ≤ 0
      · left; rw [add_to_cart_err_qty s pidv qv pid q hpid hq hq0]
      · cases hfp : findProduct s pid with
        | none =>
          left
          rw [add_to_cart_err_notfound s pidv qv pid q hpid hq (not_le.mp hq0) hfp]
        | some p =>
          cases hfc : findCartItem s cart_id_from_request pid with
          | some ci =>
            right; left
            exact ⟨ci.id, q,
              by rw [add_to_cart_merge s pidv qv pid q p ci hpid hq (not_le.mp hq0) hfp hfc]⟩
          | none =>
            right; right
            exact ⟨pid, q, hfc,
              by rw [add_to_cart_insert s pidv qv pid q p hpid hq (not_le.mp hq0) hfp hfc]⟩

/-! ### C3: at most one cart row per (cart_id, product_id) -/

theorem find?_split {α : Type} (p : α → Bool) :
    ∀ (l : List α) (a : α), l.find? p = some a →
      p a = true ∧ ∃ l1 l2, l = l1 ++ a :: l2 ∧ ∀ x ∈ l1, p x = false := by
  intro l
  induction l with
  | nil => intro a h; simp [List.find?] at h
  | cons x xs ih =>
    intro a h
    cases hx : p x with
    | true =>
      simp [List.find?, hx] at h
      subst h
      exact ⟨hx, [], xs, rfl, by simp⟩
    | false =>
      simp only [List.find?, hx] at h
      obtain ⟨hpa, l1, l2, rfl, hl1⟩ := ih a h
      refine ⟨hpa, x :: l1, l2, rfl, ?_⟩
      intro y hy
      rcases List.mem_cons.mp hy with rfl | hy2
      · exact hx
      · exact hl1 y hy2

theorem map_bump_id_of_ne (t q : Int) :
    ∀ (l : List CartItem), (∀ x ∈ l, x.id ≠ t) →
      l.map (fun x => if x.id == t then { x with quantity := x.quantity + q } else x) = l := by
  intro l
  induction l with
  | nil => intro _; rfl
  | cons a as ih =>
    intro h
    simp only [List.map_cons]
    rw [if_neg (by simpa using h a (by simp)), ih (fun x hx => h x (by simp [hx]))]

theorem bumpQuantity_split (l1 l2 : List CartItem) (ci : CartItem) (q : Int)
    (hids : ((l1 ++ ci :: l2).map CartItem.id).Nodup) :
    bumpQuantity (l1 ++ ci :: l2) ci.id q
      = l1 ++ { ci with quantity := ci.quantity + q } :: l2 := by
  rw [List.map_append, List.map_cons] at hids
  have hdisj := List.disjoint_of_nodup_append hids
  have hmid := List.Nodup.of_append_right hids
  have h1 : ∀ x ∈ l1, x.id ≠ ci.id := by
    intro x hx hxe
    exact hdisj (List.mem_map_of_mem CartItem.id hx) (by simp [hxe])
  have h2 : ∀ x ∈ l2, x.id ≠ ci.id := by
    intro x hx hxe
    exact (List.nodup_cons.mp hmid).1 (hxe ▸ List.mem_map_of_mem CartItem.id hx)
  unfold bumpQuantity
  rw [List.map_append, List.map_cons]
  rw [map_bump_id_of_ne ci.id q l1 h1, map_bump_id_of_ne ci.id q l2 h2, if_pos (by simp)]

/-- C3: `add_to_cart` preserves the at-most-one-row-per-(cart_id,
product_id) invariant, and when a row for the validated product already
exists in the cart it bumps that row's quantity by the requested amount in
place (no second row is inserted). -/
theorem add_item_merges_rows (s : Store) (pidv : PyVal) (qv : Option PyVal)
    (hids : (s.cartItems.map CartItem.id).Nodup) (hnd : CartNoDup s) :
    CartNoDup (add_to_cart s pidv qv).1 ∧
      ∀ pid q ci p, pyToInt pidv = some pid → pyToInt (qv.getD (.pyint 1)) = some q →
        0 < q → findProduct s pid = some p →
        findCartItem s cart_id_from_request pid = some ci →
        ∃ l1 l2, s.cartItems = l1 ++ ci :: l2 ∧
          (add_to_cart s pidv qv).1.cartItems
            = l1 ++ { ci with quantity := ci.quantity + q } :: l2 := by
  constructor
  · rcases add_to_cart_cartItems_shape s pidv qv with h | ⟨t, q, h⟩ | ⟨pid, q, hfc, h⟩
    · rw [h]; exact hnd
    · unfold CartNoDup at hnd ⊢
      rw [h]
      unfold bumpQuantity
      refine List.Pairwise.map _ ?_ hnd
      intro a b hab hcon
      apply hab
      constructor
      · have ea : (if a.id == t then { a with quantity := a.quantity + q } else a).cart_id
            = a.cart_id := by split <;> rfl
        have eb : (if b.id == t then { b with quantity := b.quantity + q } else b).cart_id
            = b.cart_id := by split <;> rfl
        rw [← ea, ← eb]; exact hcon.1
      · have ea : (if a.id == t then { a with quantity := a.quantity + q } else a).product_id
            = a.product_id := by split <;> rfl
        have eb : (if b.id == t then { b with quantity := b.quantity + q } else b).product_id
            = b.product_id := by split <;> rfl
        rw [← ea, ← eb]; exact hcon.2
    · unfold CartNoDup at hnd ⊢
      rw [h]
      rw [List.pairwise_append]
      refine ⟨hnd, by simp, ?_⟩
      intro a ha b hb
      have hb' : b = (⟨s.nextCartItemId, cart_id_from_request, pid, q⟩ : CartItem) := by
        simpa using hb
      subst hb'
      have := List.find?_eq_none.mp hfc a ha
      intro hcon
      exact this (by simp [hcon.1, hcon.2])
  · intro pid q ci p hpid hq hq0 hfp hfc
    obtain ⟨-, l1, l2, hsplit, -⟩ := find?_split _ s.cartItems ci hfc
    refine ⟨l1, l2, hsplit, ?_⟩
    rw [add_to_cart_merge s pidv qv pid q p ci hpid hq hq0 hfp hfc]
    rw [hsplit] at hids ⊢
    exact bumpQuantity_split l1 l2 ci q hids

/-- C3 witness: adding product 1 with quantity 2 and then quantity 3 to an
empty cart yields the single row with quantity 5. -/
def storeC3 : Store :=
  (add_to_cart ⟨[⟨1, "A", "", 100⟩], [], [], [], 2, 1, 1, 1⟩ (.pyint 1) (some (.pyint 2))).1

theorem add_item_merges_rows_witness :
    (add_to_cart storeC3 (.pyint 1) (some (.pyint 3))).1.cartItems
        = [⟨1, "default", 1, 5⟩] ∧
      (CartNoDup (add_to_cart storeC3 (.pyint 1) (some (.pyint 3))).1 ∧
        ∀ pid q ci p, pyToInt (.pyint 1) = some pid →
          pyToInt ((some (.pyint 3) : Option PyVal).getD (.pyint 1)) = some q →
          0 < q → findProduct storeC3 pid = some p →
          findCartItem storeC3 cart_id_from_request pid = some ci →
          ∃ l1 l2, storeC3.cartItems = l1 ++ ci :: l2 ∧
            (add_to_cart storeC3 (.pyint 1) (some (.pyint 3))).1.cartItems
              = l1 ++ { ci with quantity := ci.quantity + q } :: l2) :=
  ⟨by rfl, add_item_merges_rows storeC3 (.pyint 1) (some (.pyint 3)) (by decide) (by decide)⟩

/-! ### C7: orders and order items are immutable after checkout -/

theorem create_product_frame (s : Store) (n d : Option String) (pr : PriceIn) :
    (create_product s n d pr).1.orders = s.orders ∧
      (create_product s n d pr).1.orderItems = s.orderItems ∧
      (create_product s n d pr).1.cartItems = s.cartItems := by
  by_cases hn : pyStrip (n.getD "") = ""
  · simp [create_product, hn]
  · cases pr with
    | absent => simp [create_product, hn]
    | nan => simp [create_product, hn]
    | num m e =>
      by_cases hq : quantizeCents m e < 0
      · simp [create_product, hn, hq]
      · simp [create_product, hn, hq]

theorem add_to_cart_frame (s : Store) (pidv : PyVal) (qv : Option PyVal) :
    (add_to_cart s pidv qv).1.orders = s.orders ∧
      (add_to_cart s pidv qv).1.orderItems = s.orderItems ∧
      (add_to_cart s pidv qv).1.products = s.products := by
  rcases add_to_cart_cartItems_shape s pidv qv with h | ⟨t, q, h⟩ | ⟨pid, q, _, h⟩ <;>
    rw [h] <;> exact ⟨rfl, rfl, rfl⟩

theorem checkout_append (s : Store) :
    (∃ t, (checkout s).1.orders = s.orders ++ t) ∧
      (∃ u, (checkout s).1.orderItems = s.orderItems ++ u) ∧
      (checkout s).1.products = s.products := by
  unfold checkout
  cases hie : (s.cartItems.filter (fun ci => ci.cart_id == cart_id_from_request)).isEmpty with
  | true => exact ⟨⟨[], by simp [hie]⟩, ⟨[], by simp [hie]⟩, by simp [hie]⟩
  | false =>
    cases hco : checkoutItems s s.nextOrderId s.nextOrderItemId
        (s.cartItems.filter (fun ci => ci.cart_id == cart_id_from_request)) with
    | none => exact ⟨⟨[], by simp [hie, hco]⟩, ⟨[], by simp [hie, hco]⟩, by simp [hie, hco]⟩
    | some pr =>
      obtain ⟨ois, total⟩ := pr
      exact ⟨⟨[⟨s.nextOrderId, total⟩], by simp [hie, hco]⟩,
        ⟨ois, by simp [hie, hco]⟩, by simp [hie, hco]⟩

/-- C7: no operation rewrites an existing Order or OrderItem row.
`create_product` and `add_to_cart` leave the orders tables untouched;
`checkout` only appends to them; and the stored rows are value snapshots
independent of the products table, so replacing the products table (e.g.
a later price change) leaves every stored order total and unit_price
unchanged.  (`list_products` and `cart_summary` are read-only functions:
they return no store at all.) -/
theorem orders_immutable (s : Store) (n d : Option String) (pr : PriceIn)
    (pidv : PyVal) (qv : Option PyVal) (ps : List Product) :
    (create_product s n d pr).1.orders = s.orders ∧
    (create_product s n d pr).1.orderItems = s.orderItems ∧
    (add_to_cart s pidv qv).1.orders = s.orders ∧
    (add_to_cart s pidv qv).1.orderItems = s.orderItems ∧
    (∃ t, (checkout s).1.orders = s.orders ++ t) ∧
    (∃ u, (checkout s).1.orderItems = s.orderItems ++ u) ∧
    ({ s with products := ps }).orders = s.orders ∧
    ({ s with products := ps }).orderItems = s.orderItems := by
  obtain ⟨h1, h2, -⟩ := create_product_frame s n d pr
  obtain ⟨h3, h4, -⟩ := add_to_cart_frame s pidv qv
  obtain ⟨h5, h6, -⟩ := checkout_append s
  exact ⟨h1, h2, h3, h4, h5, h6, rfl, rfl⟩

/-- C7 witness: a store holding one already-placed order, with a price
change on the ordered product (id 1: 9.99 → 0.01). -/
def storeC7 : Store :=
  ⟨[⟨1, "A", "", 999⟩], [], [⟨1, 1998⟩], [⟨1, 1, 1, 2, 999⟩], 2, 1, 2, 2⟩

theorem orders_immutable_witness :
    (create_product storeC7 (some "B") none (.num 500 (-2))).1.orders = storeC7.orders ∧
    (create_product storeC7 (some "B") none (.num 500 (-2))).1.orderItems
        = storeC7.orderItems ∧
    (add_to_cart storeC7 (.pyint 1) (some (.pyint 1))).1.orders = storeC7.orders ∧
    (add_to_cart storeC7 (.pyint 1) (some (.pyint 1))).1.orderItems = storeC7.orderItems ∧
    (∃ t, (checkout storeC7).1.orders = storeC7.orders ++ t) ∧
    (∃ u, (checkout storeC7).1.orderItems = storeC7.orderItems ++ u) ∧
    ({ storeC7 with products := [⟨1, "A", "", 1⟩] }).orders = storeC7.orders ∧
    ({ storeC7 with products := [⟨1, "A", "", 1⟩] }).orderItems = storeC7.orderItems :=
  orders_immutable storeC7 (some "B") none (.num 500 (-2)) (.pyint 1) (some (.pyint 1))
    [⟨1, "A", "", 1⟩]

/-! ### C8: list_products is the id-sorted list of all products -/

theorem insertById_perm (p : Product) (l : List Product) :
    (insertById p l).Perm (p :: l) := by
  induction l with
  | nil => exact List.Perm.refl _
  | cons q qs ih =>
    unfold insertById
    by_cases h : p.id ≤ q.id
    · rw [if_pos h]
    · rw [if_neg h]
      exact (ih.cons q).trans (List.Perm.swap p q qs)

theorem sortById_perm (l : List Product) : (sortById l).Perm l := by
  induction l with
  | nil => exact List.Perm.refl _
  | cons p ps ih => exact (insertById_perm p (sortById ps)).trans (ih.cons p)

theorem pairwise_insertById (p : Product) (l : List Product)
    (h : l.Pairwise (fun a b => a.id ≤ b.id)) :
    (insertById p l).Pairwise (fun a b => a.id ≤ b.id) := by
  induction l with
  | nil => simp [insertById]
  | cons q qs ih =>
    unfold insertById
    have hq := List.pairwise_cons.mp h
    by_cases hpq : p.id ≤ q.id
    · rw [if_pos hpq]
      refine List.Pairwise.cons ?_ h
      intro b hb
      rcases List.mem_cons.mp hb with rfl | hb2
      · exact hpq
      · exact le_trans hpq (hq.1 b hb2)
    · rw [if_neg hpq]
      refine List.Pairwise.cons ?_ (ih hq.2)
      intro b hb
      rcases List.mem_cons.mp ((insertById_perm p qs).mem_iff.mp hb) with rfl | hb2
      · exact le_of_not_le hpq
      · exact hq.1 b hb2

theorem pairwise_sortById (l : List Product) :
    (sortById l).Pairwise (fun a b => a.id ≤ b.id) := by
  induction l with
  | nil => simp [sortById]
  | cons p ps ih => exact pairwise_insertById p (sortById ps) ih

/-- C8: `list_products` returns a permutation of the products table (every
persisted product exactly once, since ids are unique) in strictly
ascending id order.  Determinism is definitional: the result is a function
of the store alone. -/
theorem list_products_ordered (s : Store) (h : (s.products.map Product.id).Nodup) :
    (list_products s).Perm s.products ∧
      (list_products s).Pairwise (fun a b => a.id < b.id) := by
  have hperm : (list_products s).Perm s.products := sortById_perm s.products
  refine ⟨hperm, ?_⟩
  have hle : (list_products s).Pairwise (fun a b => a.id ≤ b.id) := pairwise_sortById s.products
  have hnd : ((list_products s).map Product.id).Nodup :=
    ((hperm.map Product.id).nodup_iff).mpr h
  have hne : (list_products s).Pairwise (fun a b => a.id ≠ b.id) := List.pairwise_map.mp hnd
  exact (hle.and hne).imp (fun hab => lt_of_le_of_ne hab.1 hab.2)

/-- C8 witness: a products table out of storage order is returned sorted. -/
def storeC8 : Store := ⟨[⟨2, "B", "", 100⟩, ⟨1, "A", "", 200⟩], [], [], [], 3, 1, 1, 1⟩

theorem list_products_ordered_witness :
    list_products storeC8 = [⟨1, "A", "", 200⟩, ⟨2, "B", "", 100⟩] ∧
      ((list_products storeC8).Perm storeC8.products ∧
        (list_products storeC8).Pairwise (fun a b => a.id < b.id)) :=
  ⟨by rfl, list_products_ordered storeC8 (by decide)⟩

/-! ### C5: create_product validation -/

/-- C5: `create_product` fails with a validation error exactly when the
stripped name is empty, the price is absent, the price does not parse as a
number, or the parsed (quantized) price is negative; on failure the store
is unchanged, and on success exactly the new product — with the stripped
name and description and the quantized price — is appended. -/
theorem create_product_validation (s : Store) (n d : Option String) (pr : PriceIn) :
    ((∃ msg, (create_product s n d pr).2 = .error (.validation msg)) ↔
      (pyStrip (n.getD "") = "" ∨ pr = .absent ∨ pr = .nan ∨
        ∃ m e, pr = .num m e ∧ quantizeCents m e < 0)) ∧
    (∀ e, (create_product s n d pr).2 = .error e → (create_product s n d pr).1 = s) ∧
    (∀ p, (create_product s n d pr).2 = .ok p →
      (create_product s n d pr).1
          = { s with products := s.products ++ [p], nextProductId := s.nextProductId + 1 } ∧
        ∃ m e, pr = .num m e ∧
          p = ⟨s.nextProductId, pyStrip (n.getD ""), pyStrip (d.getD ""),
                quantizeCents m e⟩) := by
  by_cases hn : pyStrip (n.getD "") = ""
  · have hres : create_product s n d pr = (s, .error (.validation "name is required")) := by
      simp [create_product, hn]
    rw [hres]
    exact ⟨iff_of_true ⟨"name is required", rfl⟩ (Or.inl hn),
      fun e _ => rfl, fun p hp => by simp at hp⟩
  · cases pr with
    | absent =>
      have hres : create_product s n d .absent
          = (s, .error (.validation "price is required")) := by
        simp [create_product, hn]
      rw [hres]
      exact ⟨iff_of_true ⟨"price is required", rfl⟩ (Or.inr (Or.inl rfl)),
        fun e _ => rfl, fun p hp => by simp at hp⟩
    | nan =>
      have hres : create_product s n d .nan
          = (s, .error (.validation "price must be a number")) := by
        simp [create_product, hn]
      rw [hres]
      exact ⟨iff_of_true ⟨"price must be a number", rfl⟩ (Or.inr (Or.inr (Or.inl rfl))),
        fun e _ => rfl, fun p hp => by simp at hp⟩
    | num m e =>
      by_cases hq : quantizeCents m e < 0
      · have hres : create_product s n d (.num m e)
            = (s, .error (.validation "price must be >= 0")) := by
          simp [create_product, hn, hq]
        rw [hres]
        exact ⟨iff_of_true ⟨"price must be >= 0", rfl⟩
            (Or.inr (Or.inr (Or.inr ⟨m, e, rfl, hq⟩))),
          fun e _ => rfl, fun p hp => by simp at hp⟩
      · have hres : create_product s n d (.num m e)
            = ({ s with
                  products := s.products
                    ++ [⟨s.nextProductId, pyStrip (n.getD ""), pyStrip (d.getD ""),
                          quantizeCents m e⟩],
                  nextProductId := s.nextProductId + 1 },
               .ok ⟨s.nextProductId, pyStrip (n.getD ""), pyStrip (d.getD ""),
                     quantizeCents m e⟩) := by
          simp [create_product, hn, hq]
        rw [hres]
        refine ⟨iff_of_false (by simp) (by simp [hn]; exact not_lt.mp hq),
          fun e he => by simp at he, ?_⟩
        intro p hp
        simp only [Except.ok.injEq] at hp
        subst hp
        exact ⟨rfl, m, e, rfl, rfl⟩

/-- C5 witness: price `-1` is rejected with a validation error and the
store is unchanged. -/
theorem create_product_validation_witness :
    quantizeCents (-1) 0 < 0 ∧
      (((∃ msg, (create_product emptyStore (some "X") none (.num (-1) 0)).2
            = .error (.validation msg)) ↔
          (pyStrip ((some "X" : Option String).getD "") = "" ∨
            (.num (-1) 0 : PriceIn) = .absent ∨ (.num (-1) 0 : PriceIn) = .nan ∨
            ∃ m e, (.num (-1) 0 : PriceIn) = .num m e ∧ quantizeCents m e < 0)) ∧
        (∀ e, (create_product emptyStore (some "X") none (.num (-1) 0)).2 = .error e →
          (create_product emptyStore (some "X") none (.num (-1) 0)).1 = emptyStore) ∧
        (∀ p, (create_product emptyStore (some "X") none (.num (-1) 0)).2 = .ok p →
          (create_product emptyStore (some "X") none (.num (-1) 0)).1
              = { emptyStore with
                  products := emptyStore.products ++ [p],
                  nextProductId := emptyStore.nextProductId + 1 } ∧
            ∃ m e, (.num (-1) 0 : PriceIn) = .num m e ∧
              p = ⟨emptyStore.nextProductId, pyStrip ((some "X" : Option String).getD ""),
                    pyStrip ((none : Option String).getD ""), quantizeCents m e⟩)) :=
  ⟨by decide, create_product_validation emptyStore (some "X") none (.num (-1) 0)⟩

/-! ### C4: add_to_cart validation (corrected) -/

def storeC4 : Store := ⟨[⟨1, "A", "", 100⟩], [], [], [], 2, 1, 1, 1⟩

/-- C4 counterexample: the quantity `2.5` (the float with exact value
`5 / 2 ^ 1`) is not an integer, yet `add_to_cart` does not fail with a
validation error: Python `int()` truncates it to `2` and the row is
inserted with quantity 2. -/
theorem add_item_float_quantity_accepted :
    add_to_cart storeC4 (.pyint 1) (some (.pyfloat 5 1))
      = (⟨[⟨1, "A", "", 100⟩], [⟨1, "default", 1, 2⟩], [], [], 2, 2, 1, 1⟩, .ok ()) := rfl

/-- C4 (amended): `add_to_cart` fails with a validation error exactly when
product_id is missing/null, when `int()` conversion of product_id or of the
defaulted quantity fails (null or non-numeric value — non-integral numbers
are truncated toward zero and accepted), or when the converted quantity is
≤ 0; it fails with not-found exactly when the converted product_id matches
no product; on every failure the store is unchanged. -/
theorem add_item_error_classification (s : Store) (pidv : PyVal) (qv : Option PyVal) :
    ((∃ msg, (add_to_cart s pidv qv).2 = .error (.validation msg)) ↔
      (pidv = .pynone ∨ pyToInt pidv = none ∨ pyToInt (qv.getD (.pyint 1)) = none ∨
        ∃ q, pyToInt (qv.getD (.pyint 1)) = some q ∧ q ≤ 0)) ∧
    ((∃ msg, (add_to_cart s pidv qv).2 = .error (.notFound msg)) ↔
      (∃ pid q, pyToInt pidv = some pid ∧ pyToInt (qv.getD (.pyint 1)) = some q ∧
        0 < q ∧ findProduct s pid = none)) ∧
    (∀ e, (add_to_cart s pidv qv).2 = .error e → (add_to_cart s pidv qv).1 = s) := by
  by_cases hne : pidv = .pynone
  · subst hne
    rw [add_to_cart_err_required]
    exact ⟨iff_of_true ⟨"product_id is required", rfl⟩ (Or.inl rfl),
      iff_of_false (by simp) (by simp [pyToInt_pynone]), fun e _ => rfl⟩
  cases hpid : pyToInt pidv with
  | none =>
    rw [add_to_cart_err_notint s pidv qv hne (Or.inl hpid)]
    exact ⟨iff_of_true ⟨_, rfl⟩ (Or.inr (Or.inl rfl)),
      iff_of_false (by simp) (by simp), fun e _ => rfl⟩
  | some pid =>
    cases hq : pyToInt (qv.getD (.pyint 1)) with
    | none =>
      rw [add_to_cart_err_notint s pidv qv hne (Or.inr hq)]
      exact ⟨iff_of_true ⟨_, rfl⟩ (Or.inr (Or.inr (Or.inl rfl))),
        iff_of_false (by simp) (by simp), fun e _ => rfl⟩
    | some q =>
      by_cases hq0 : q ≤ 0
      · rw [add_to_cart_err_qty s pidv qv pid q hpid hq hq0]
        refine ⟨iff_of_true ⟨_, rfl⟩ (Or.inr (Or.inr (Or.inr ⟨q, rfl, hq0⟩))),
          iff_of_false (by simp) ?_, fun e _ => rfl⟩
        simp only [Option.some.injEq, not_exists]
        intro pid' q' hcon
        obtain ⟨rfl, rfl, hlt, -⟩ := hcon
        exact absurd hlt (not_lt.mpr hq0)
      · cases hfp : findProduct s pid with
        | none =>
          rw [add_to_cart_err_notfound s pidv qv pid q hpid hq (not_le.mp hq0) hfp]
          exact ⟨iff_of_false (by simp) (by simp [hne, hq0]),
            iff_of_true ⟨"product not found", rfl⟩ ⟨pid, q, rfl, rfl, not_le.mp hq0, hfp⟩,
            fun e _ => rfl⟩
        | some p =>
          cases hfc : findCartItem s cart_id_from_request pid with
          | some ci =>
            rw [add_to_cart_merge s pidv qv pid q p ci hpid hq (not_le.mp hq0) hfp hfc]
            exact ⟨iff_of_false (by simp) (by simp [hne, hq0]),
              iff_of_false (by simp) (by simp [hfp]), fun e he => by simp at he⟩
          | none =>
            rw [add_to_cart_insert s pidv qv pid q p hpid hq (not_le.mp hq0) hfp hfc]
            exact ⟨iff_of_false (by simp) (by simp [hne, hq0]),
              iff_of_false (by simp) (by simp [hfp]), fun e he => by simp at he⟩

/-- C4 witness: a product id with no matching product fails with
not-found and leaves the store unchanged. -/
theorem add_item_error_classification_witness :
    ((∃ msg, (add_to_cart storeC4 (.pyint 7) (some (.pyint 1))).2
          = .error (.validation msg)) ↔
      ((.pyint 7 : PyVal) = .pynone ∨ pyToInt (.pyint 7) = none ∨
        pyToInt ((some (.pyint 1) : Option PyVal).getD (.pyint 1)) = none ∨
        ∃ q, pyToInt ((some (.pyint 1) : Option PyVal).getD (.pyint 1)) = some q ∧ q ≤ 0)) ∧
    ((∃ msg, (add_to_cart storeC4 (.pyint 7) (some (.pyint 1))).2
          = .error (.notFound msg)) ↔
      (∃ pid q, pyToInt (.pyint 7) = some pid ∧
        pyToInt ((some (.pyint 1) : Option PyVal).getD (.pyint 1)) = some q ∧
        0 < q ∧ findProduct storeC4 pid = none)) ∧
    (∀ e, (add_to_cart storeC4 (.pyint 7) (some (.pyint 1))).2 = .error e →
      (add_to_cart storeC4 (.pyint 7) (some (.pyint 1))).1 = storeC4) :=
  add_item_error_classification storeC4 (.pyint 7) (some (.pyint 1))

end Minimart
